import Mathlib

/-!
Verification of the data-analyzer-assistant pipeline (src/tools.py, src/agent.py)
against its natural-language specification.

The development is a shallow embedding: Python strings are `List Char`,
pandas DataFrames are an explicit rows-and-typed-columns structure, the
sandboxed executor is a function from an execution outcome to the structured
result record it builds, and the LangGraph state machine of `agent.py` is a
fuel-indexed transition function over an explicit state record.  External
collaborators (the LLM calls, the exec of arbitrary Python) enter as
parameters/oracles, exactly at the points where the source calls them.
-/

namespace DataAnalyzer

/-! ## Python string primitives (str modelled as `List Char`)

These model the exact Python operations used by the source:
`sub in s`, `s.find(sub)`, `s.find(sub, start)`, slicing `s[a:b]`
(including the negative-index normalisation that matters when `find`
returns -1), and `s.strip()`. -/

/-- Whitespace characters removed by Python `str.strip()`. -/
def isPySpace (c : Char) : Bool :=
  c = ' ' || c = '\t' || c = '\n' || c = '\x0d' || c = '\x0b' || c = '\x0c'

/-- Python `s.strip()`: drop leading and trailing whitespace. -/
def pyStrip (s : List Char) : List Char :=
  ((s.dropWhile isPySpace).reverse.dropWhile isPySpace).reverse

/-- Does `hay` start with `pat`? -/
def startsWith : List Char → List Char → Bool
  | _, [] => true
  | [], _ :: _ => false
  | c :: cs, p :: ps => c = p && startsWith cs ps

/-- Index of the first occurrence of `pat` in `hay`, if any
(the search underlying Python `str.find`). -/
def findSub : List Char → List Char → Option Nat
  | [], pat => if startsWith [] pat then some 0 else none
  | c :: t, pat =>
    if startsWith (c :: t) pat then some 0
    else (findSub t pat).map (· + 1)

/-- Python `sub in s`. -/
def containsSub (s pat : List Char) : Bool := (findSub s pat).isSome

/-- Python `s.find(sub, start)` with a non-negative `start`:
absolute index of the first occurrence at or after `start`, else -1. -/
def pyFindFrom (s pat : List Char) (start : Nat) : Int :=
  match findSub (s.drop start) pat with
  | some i => ((start + i : Nat) : Int)
  | none => -1

/-- Python `s.find(sub)`. -/
def pyFind (s pat : List Char) : Int := pyFindFrom s pat 0

/-- Normalise a Python slice index against length `n`:
negative indices count from the end, out-of-range indices clamp. -/
def pyNormIdx (n : Nat) (i : Int) : Nat :=
  if i < 0 then ((n : Int) + i).toNat else min i.toNat n

/-- Python slice `s[a:b]`. -/
def pySlice (s : List Char) (a b : Int) : List Char :=
  (s.take (pyNormIdx s.length b)).drop (pyNormIdx s.length a)

/-- The backtick character, the building block of fence markers. -/
def btick : Char := Char.ofNat 96

/-- The untagged code fence marker. -/
def fenceMarker : List Char := "```".data

/-- The python-tagged code fence marker (9 characters). -/
def pyFenceTag : List Char := "```python".data

/-! ## Code-block extraction (src/agent.py)

`coder_node` (lines 190-203) and `code_revision_node` (lines 285-298) each
extract code from the LLM response `content`:
first a ```python-tagged fence, else the first untagged fence, and when no
fence exists at all, `coder_node` falls back to the deterministic baseline
`basic_code` while `code_revision_node` uses `content.strip()`. -/

/-- Extraction performed on the synthesis path (`coder_node`, agent.py
lines 192-201), with `basicCode` the `create_analysis_code` baseline. -/
def extractCoder (content basicCode : List Char) : List Char :=
  if containsSub content pyFenceTag then
    let cs : Int := pyFind content pyFenceTag + 9
    let ce : Int := pyFindFrom content fenceMarker cs.toNat
    pyStrip (pySlice content cs ce)
  else if containsSub content fenceMarker then
    let cs : Int := pyFind content fenceMarker + 3
    let ce : Int := pyFindFrom content fenceMarker cs.toNat
    pyStrip (pySlice content cs ce)
  else
    basicCode

/-- Extraction performed on the revision path (`code_revision_node`,
agent.py lines 287-296). -/
def extractRevision (content : List Char) : List Char :=
  if containsSub content pyFenceTag then
    let cs : Int := pyFind content pyFenceTag + 9
    let ce : Int := pyFindFrom content fenceMarker cs.toNat
    pyStrip (pySlice content cs ce)
  else if containsSub content fenceMarker then
    let cs : Int := pyFind content fenceMarker + 3
    let ce : Int := pyFindFrom content fenceMarker cs.toNat
    pyStrip (pySlice content cs ce)
  else
    pyStrip content

/-! ## Tabular data model and profiler (src/tools.py, `get_data_summary`)

A DataFrame is a list of named, typed columns plus a list of rows; a cell is
`Option String` (`none` is a pandas null).  The dtype tag records the class
pandas `select_dtypes` keys on: `include=['number']` picks the `numeric`
columns, `include=['object','category']` picks the `objectLike` ones, and
everything else (bool, datetime, ...) is in neither selection. -/

/-- A pandas dtype, as far as `get_data_summary` inspects it: its `str(dtype)`
name and which `select_dtypes` class it belongs to. -/
inductive Dtype where
  | numeric (nm : String)
  | objectLike (nm : String)
  | other (nm : String)
deriving DecidableEq

/-- The `str(dtype)` string stored in the summary's `dtypes` entry. -/
def Dtype.nm : Dtype → String
  | .numeric s => s
  | .objectLike s => s
  | .other s => s

def Dtype.isNumeric : Dtype → Bool
  | .numeric _ => true
  | _ => false

def Dtype.isObjectLike : Dtype → Bool
  | .objectLike _ => true
  | _ => false

/-- A tabular dataset: named/typed columns and rows of optional cells
(`none` models a pandas null). -/
structure DataFrame where
  cols : List (String × Dtype)
  rows : List (List (Option String))
deriving DecidableEq

instance : Inhabited DataFrame := ⟨⟨[], []⟩⟩

/-- Every row has one cell per column. -/
def DataFrame.Wf (df : DataFrame) : Prop :=
  ∀ r ∈ df.rows, r.length = df.cols.length

/-- The cells of column `j`, top to bottom (pandas `df[col]`). -/
def DataFrame.colCells (df : DataFrame) (j : Nat) : List (Option String) :=
  df.rows.map fun r => (r.get? j).join

/-- Number of nulls in a column (`df.isnull().sum()` for that column). -/
def nullCountOf (cells : List (Option String)) : Nat :=
  (cells.filter Option.isNone).length

/-- The non-null values of a column, in row order (what pandas
`value_counts` / `nunique` operate on, both of which drop nulls). -/
def nonNullValues (cells : List (Option String)) : List String :=
  cells.filterMap id

/-- Pandas `value_counts()` on a column: distinct non-null values with their
frequencies, sorted by frequency descending (stable, so ties keep
first-appearance order). -/
def valueCounts (cells : List (Option String)) : List (String × Nat) :=
  let vals := nonNullValues cells
  (vals.dedup.map fun v => (v, vals.count v)).mergeSort fun a b => b.2 ≤ a.2

/-- The `categorical_info` entry of one column: `nunique()` and
`value_counts().head(5)` (tools.py lines 57-66). -/
structure CatInfo where
  uniqueCount : Nat
  topValues : List (String × Nat)
deriving DecidableEq

/-- The dictionary produced by `get_data_summary`.  `numericStats` holds the
key list of the `numeric_stats` entry and `categoricalInfo` the
`categorical_info` entry; `none` means the key is absent from the dict.
The float values of `describe()` and the host-dependent `memory_usage`
byte count are outside the embedding (floating point / host memory); no
claim depends on them, only on the key structure. -/
structure Summary where
  shape : Nat × Nat
  columns : List String
  dtypes : List (String × String)
  nullCounts : List (String × Nat)
  duplicateCount : Nat
  numericStats : Option (List String)
  categoricalInfo : Option (List (String × CatInfo))
deriving DecidableEq

/-- `get_data_summary` (tools.py lines 13-68).  Computes shape, column list,
dtype names, per-column null counts, the duplicate-row count, and — only
when the respective `select_dtypes` selection is non-empty — the
`numeric_stats` keys and the `categorical_info` map. -/
def getDataSummary (df : DataFrame) : Summary :=
  let numericCols := (df.cols.filter fun c => c.2.isNumeric).map Prod.fst
  let catIndexed := df.cols.enum.filter fun jc => jc.2.2.isObjectLike
  { shape := (df.rows.length, df.cols.length)
    columns := df.cols.map Prod.fst
    dtypes := df.cols.map fun c => (c.1, c.2.nm)
    nullCounts := df.cols.enum.map fun jc => (jc.2.1, nullCountOf (df.colCells jc.1))
    duplicateCount := df.rows.length - df.rows.dedup.length
    numericStats := if numericCols.isEmpty then none else some numericCols
    categoricalInfo :=
      if catIndexed.isEmpty then none
      else some (catIndexed.map fun jc =>
        (jc.2.1,
         { uniqueCount := (nonNullValues (df.colCells jc.1)).dedup.length
           topValues := (valueCounts (df.colCells jc.1)).take 5 })) }

/-! ## Task planner (src/tools.py, `generate_analysis_tasks`) -/

/-- An analysis task: `task_type`, optional `column`, `description`
(the `scatter_matrix` template's `columns` list never occurs in planner
output, so it is not modelled). -/
structure Task where
  taskType : String
  column : Option String
  description : String
deriving DecidableEq

instance : Inhabited Task := ⟨⟨"basic_info", none, "データの基本情報を表示"⟩⟩

/-- The unconditional first task (tools.py lines 176-179). -/
def basicInfoTask : Task := ⟨"basic_info", none, "データの基本情報を表示"⟩

def histTask (col : String) : Task := ⟨"histogram", some col, col ++ "のヒストグラム"⟩

def corrTask : Task := ⟨"correlation_matrix", none, "数値カラム間の相関行列"⟩

def barTask (col : String) : Task := ⟨"bar_chart", some col, col ++ "の分布（棒グラフ）"⟩

/-- A padding task appended when `len(tasks) = k < 5`
(tools.py lines 231-235; the description numbers it `k+1`). -/
def padTask (k : Nat) : Task :=
  ⟨"basic_info", none, "データの基本情報を表示（タスク" ++ toString (k + 1) ++ "）"⟩

/-- The `for col in categorical_cols` loop (tools.py lines 219-225):
append a bar chart per categorical column while under the cap of 5. -/
def addBarCharts : List String → List Task → List Task
  | [], ts => ts
  | c :: cs, ts => addBarCharts cs (if ts.length < 5 then ts ++ [barTask c] else ts)

/-- The `while len(tasks) < 5` padding loop (tools.py lines 231-235),
with fuel: 5 iterations always suffice since each appends one task. -/
def padTasks : Nat → List Task → List Task
  | 0, ts => ts
  | n + 1, ts => if ts.length < 5 then padTasks n (ts ++ [padTask ts.length]) else ts

/-- `generate_analysis_tasks` (tools.py lines 171-237). -/
def generateAnalysisTasks (s : Summary) : List Task :=
  let t0 : List Task := [basicInfoTask]
  let t1 :=
    match s.numericStats with
    | none => t0
    | some ncols =>
      let a := if 0 < ncols.length && t0.length < 5 then t0 ++ [histTask (ncols.getD 0 "")] else t0
      let b := if 1 < ncols.length && a.length < 5 then a ++ [histTask (ncols.getD 1 "")] else a
      let c := if 2 < ncols.length && b.length < 5 then b ++ [histTask (ncols.getD 2 "")] else b
      if 1 < ncols.length && c.length < 5 then c ++ [corrTask] else c
  let t2 :=
    match s.categoricalInfo with
    | none => t1
    | some cinfo => if t1.length < 5 then addBarCharts (cinfo.map Prod.fst) t1 else t1
  padTasks 5 (t2.take 5)

/-! ## Sandboxed executor (src/tools.py, `safe_code_execution`)

The executor builds a restricted namespace, runs `exec(code, exec_globals)`
under captured stdout/stderr, and assembles a result dict.  A runtime Python
value is abstracted to exactly the capabilities the collection loop
(tools.py lines 130-151) inspects: `str(type(v))`, the three `hasattr`
probes, and `str(v)`. -/

/-- A Python runtime value, as inspected by the artifact-collection loop. -/
structure PyVal where
  typeStr : List Char
  hasToDict : Bool
  hasShow : Bool
  hasData : Bool
  reprStr : List Char
deriving DecidableEq

/-- Lower-casing of a Python string (`.lower()`). -/
def lowerStr (s : List Char) : List Char := s.map Char.toLower

/-- The duck-typed Plotly-figure test (tools.py lines 132-140). -/
def isPlotlyFigure (v : PyVal) : Bool :=
  (containsSub (lowerStr v.typeStr) ("plotly".data) &&
    (containsSub (lowerStr v.typeStr) ("figure".data) ||
     containsSub (lowerStr v.typeStr) ("graph".data))) ||
  (v.hasToDict && v.hasShow && v.hasData)

/-- Names excluded from the auxiliary-variable collection
(tools.py line 149). -/
def excludedVarNames : List String := ["__builtins__", "pd", "px", "go", "ff", "df", "np"]

/-- What `exec(code, exec_globals)` left behind: whether it raised (with the
exception's `str(e)`), the final `exec_globals` bindings in insertion order
(Python keeps the bindings made before a raise), and the two captured
output buffers. -/
structure ExecOutcome where
  raised : Option (List Char)
  globalsAfter : List (String × PyVal)
  stdout : List Char
  stderr : List Char

/-- The result dict returned by `safe_code_execution`
(tools.py lines 110-116). -/
structure ExecResult where
  success : Bool
  output : List Char
  error : List Char
  figures : List (String × PyVal)
  vars : List (String × List Char)
deriving DecidableEq

/-- The collection loop over `exec_globals.items()` (tools.py lines 130-151):
Plotly-looking bindings become figures; any other binding outside the
seven initial names is stored as `str(value)[:1000]`. -/
def collectArtifacts : List (String × PyVal) → List (String × PyVal) × List (String × List Char)
  | [] => ([], [])
  | (n, v) :: rest =>
    let (figs, vars) := collectArtifacts rest
    if isPlotlyFigure v then ((n, v) :: figs, vars)
    else if n ∈ excludedVarNames then (figs, vars)
    else (figs, (n, v.reprStr.take 1000) :: vars)

/-- `safe_code_execution` after the namespace has been built and `exec` has
run (tools.py lines 110-168).  On completion without raising: success,
captured stdout, artifacts collected from the final namespace.  On a
raise: the initial record with `error = str(e)` and `output` taken from
the stderr buffer.  The `task_info` argument only selects host-side
diagnostic prints (lines 153-162), which never enter the returned record,
so it does not appear on the right-hand side. -/
def safeCodeExecution (out : ExecOutcome) (taskInfo : Option Task) : ExecResult :=
  match out.raised with
  | some e =>
    { success := false, output := out.stderr, error := e, figures := [], vars := [] }
  | none =>
    let fv := collectArtifacts out.globalsAfter
    { success := true, output := out.stdout, error := [], figures := fv.1, vars := fv.2 }

/-- How a call to `exec(code, exec_globals)` can terminate, as seen by the
`try ... except Exception` of tools.py lines 118-164.  A normal return
or a raised `Exception` instance stays inside the handler and yields an
`ExecOutcome`; a raised `BaseException` that is not an `Exception`
(`SystemExit`, `KeyboardInterrupt`, ...) is NOT matched by
`except Exception` and escapes — and such a raise is reachable from
executed code, since `__import__` is on the builtin allow-list
(tools.py line 88), so e.g. `__import__('sys').exit()` raises
`SystemExit`. -/
inductive ExecTermination where
  | handled (out : ExecOutcome)
  | escaped (msg : List Char)

/-- The whole call including the namespace construction: `df.copy()`
(tools.py line 103) runs before the try block, so a host-level copy
failure propagates to the caller; the body is wrapped by
`except Exception` (tools.py line 164), which returns the result record
for a normal or `Exception` termination but lets a `BaseException`
raised by the executed code propagate past the boundary.  `run`
abstracts `exec(code, exec_globals)` acting on the copied frame. -/
def safeCodeExecutionCall (copyResult : Except (List Char) DataFrame)
    (run : DataFrame → ExecTermination) (taskInfo : Option Task) :
    Except (List Char) ExecResult :=
  match copyResult with
  | .error e => .error e
  | .ok dfCopy =>
    match run dfCopy with
    | .handled out => .ok (safeCodeExecution out taskInfo)
    | .escaped msg => .error msg

/-! ### Namespace closure: a small semantics of name resolution

For the namespace-closure property the relevant fragment of Python is name
lookup in `exec_globals` with `__builtins__` replaced by the allow-list
(tools.py lines 81-104): a bare name resolves in the globals dict, then in
the safe builtins, and otherwise evaluation raises `NameError`. -/

/-- The allow-listed builtins (tools.py lines 84-90); every one of these
names exists on CPython's `builtins`, so the `hasattr` filter on line 93
keeps them all. -/
def safeBuiltinNames : List String :=
  ["len", "range", "enumerate", "zip", "map", "filter", "sum",
   "min", "max", "abs", "round", "int", "float", "str", "bool",
   "list", "dict", "tuple", "set", "print", "type", "isinstance",
   "__import__", "getattr", "hasattr", "setattr", "delattr",
   "dir", "vars", "sorted", "reversed", "any", "all"]

/-- First-match association lookup (Python dict read). -/
def lookupAssoc : List (String × PyVal) → String → Option PyVal
  | [], _ => none
  | (k, v) :: rest, n => if k = n then some v else lookupAssoc rest n

/-- Python dict write: overwrite in place, else append (insertion order). -/
def setBinding : List (String × PyVal) → String → PyVal → List (String × PyVal)
  | [], n, v => [(n, v)]
  | (k, w) :: rest, n, v =>
    if k = n then (k, v) :: rest else (k, w) :: setBinding rest n v

/-- The abstract value of a Python module object (`str(type(m))` is
`<class 'module'>`; no `to_dict`/`show`/`data` attributes). -/
def moduleVal (nm : List Char) : PyVal :=
  { typeStr := "<class 'module'>".data, hasToDict := false, hasShow := false,
    hasData := false, reprStr := nm }

/-- The abstract value of a builtin function. -/
def builtinVal (nm : String) : PyVal :=
  { typeStr := "<class 'builtin_function_or_method'>".data, hasToDict := false,
    hasShow := false, hasData := false, reprStr := nm.data }

/-- The abstract value of the safe-builtins dict bound to `__builtins__`. -/
def builtinsDictVal : PyVal :=
  { typeStr := "<class 'dict'>".data, hasToDict := false, hasShow := false,
    hasData := false, reprStr := "".data }

/-- The abstract value of the copied DataFrame bound to `df`: a pandas
`DataFrame` has a `to_dict` method but neither `show` nor a `data`
attribute, so it is never classified as a figure. -/
def dataFrameVal : PyVal :=
  { typeStr := "<class 'pandas.core.frame.DataFrame'>".data, hasToDict := true,
    hasShow := false, hasData := false, reprStr := "DataFrame".data }

/-- The initial `exec_globals` (tools.py lines 96-104), in insertion order. -/
def initGlobals : List (String × PyVal) :=
  [("__builtins__", builtinsDictVal),
   ("pd", moduleVal "pandas".data),
   ("px", moduleVal "plotly.express".data),
   ("go", moduleVal "plotly.graph_objects".data),
   ("ff", moduleVal "plotly.figure_factory".data),
   ("np", moduleVal "numpy".data),
   ("df", dataFrameVal)]

/-- Bare-name resolution under `exec(code, exec_globals)` with
`exec_globals['__builtins__'] = safe_builtins`: globals first, then the
allow-listed builtins, else a `NameError`. -/
def lookupName (globals : List (String × PyVal)) (n : String) : Option PyVal :=
  match lookupAssoc globals n with
  | some v => some v
  | none => if n ∈ safeBuiltinNames then some (builtinVal n) else none

/-- The string `str(e)` of the `NameError` raised for an unresolvable name. -/
def nameErrorMsg (n : String) : List Char :=
  ("name '" ++ n ++ "' is not defined").data

/-- Expressions of the executed-code fragment relevant to name resolution. -/
inductive PyExpr where
  | name (n : String)
  | lit (v : PyVal)

/-- Statements of the executed-code fragment. -/
inductive PyStmt where
  | assign (n : String) (e : PyExpr)
  | exprStmt (e : PyExpr)

def evalExpr (globals : List (String × PyVal)) : PyExpr → Except (List Char) PyVal
  | .name n =>
    match lookupName globals n with
    | some v => .ok v
    | none => .error (nameErrorMsg n)
  | .lit v => .ok v

/-- Sequential execution of statements, stopping at the first raise and
keeping the bindings made so far (Python `exec` semantics). -/
def execStmts : List PyStmt → List (String × PyVal) →
    List (String × PyVal) × Option (List Char)
  | [], g => (g, none)
  | .assign n e :: rest, g =>
    match evalExpr g e with
    | .ok v => execStmts rest (setBinding g n v)
    | .error m => (g, some m)
  | .exprStmt e :: rest, g =>
    match evalExpr g e with
    | .ok _ => execStmts rest g
    | .error m => (g, some m)

/-- `safe_code_execution` applied to a code fragment of the modelled
language: build the restricted namespace, run the statements, and wrap
the outcome exactly as the source does.  The modelled fragment performs
no output, so both captured buffers are empty. -/
def runSandboxed (stmts : List PyStmt) (taskInfo : Option Task) : ExecResult :=
  let (g, err) := execStmts stmts initGlobals
  safeCodeExecution { raised := err, globalsAfter := g, stdout := [], stderr := [] } taskInfo

/-! ### Sandbox isolation: the copy discipline as a heap model

`exec_globals['df'] = df.copy()` (tools.py line 103) is what keeps the
caller's DataFrame object unchanged.  To state that as more than a value
equation the objects live in an explicit heap: the caller holds a
reference, the call allocates a fresh object holding the same value, and
the executed code (abstracted as `mutate`) rewrites the fresh object in
place.  The call returns the final heap together with the value the
executed code saw bound to `df` when `exec` began. -/

/-- One `safe_code_execution` call, seen through the heap of DataFrame
objects.  `dfRef` is the caller's object; the executed code's effect on
the `df` binding is abstracted as `mutate`. -/
def safeCodeExecutionHeap (heap : List DataFrame) (dfRef : Nat)
    (mutate : DataFrame → DataFrame) : List DataFrame × DataFrame :=
  let orig := heap.getD dfRef default
  let copyRef := heap.length
  let heap1 := heap ++ [orig]
  let heap2 := heap1.set copyRef (mutate orig)
  (heap2, orig)

/-! ## Pipeline controller (src/agent.py, `DataAnalysisAgent`)

The LangGraph state `AnalysisState` and the node functions.  The
`dataframe`, `data_summary` and `report` fields are not modelled in the
state record: no claim reads them, and the summary enters only through
`planner_node`, which receives it as an argument here.  LLM calls are
oracles: `Option (List Char)` is the response content, `none` standing for
the call raising (the `except` branches of the source). -/

/-- One entry of the `execution_results` log (agent.py lines 225-229). -/
structure TaskRecord where
  task : Task
  code : List Char
  result : ExecResult
deriving DecidableEq

/-- The pipeline-relevant part of `AnalysisState` (agent.py lines 32-43). -/
structure AgState where
  plan : List Task
  currentTaskIndex : Nat
  codeString : Option (List Char)
  executionResults : List TaskRecord
  errorCount : Nat
  maxRetries : Nat
  completed : Bool
deriving DecidableEq

/-- The labels returned by `decide_after_execution` (agent.py lines 395-412);
`errorEnd` is the `"error"` edge to `END`. -/
inductive Route where
  | retry
  | nextTask
  | errorEnd
deriving DecidableEq

/-- `planner_node` (agent.py lines 116-136): store the generated tasks
truncated to 10, reset cursor, log, error counter, and set the retry
limit to 3. -/
def plannerNode (summary : Summary) (st : AgState) : AgState :=
  { st with plan := (generateAnalysisTasks summary).take 10
            currentTaskIndex := 0
            executionResults := []
            errorCount := 0
            maxRetries := 3 }

/-- `coder_node` (agent.py lines 138-209): past the end of the plan mark
completion; otherwise set `code_string` from the LLM response via the
synthesis-path extraction, falling back to the baseline `basicCode`
(which stands for `create_analysis_code(current_task)`) when the call
raises. -/
def coderNode (llm : Option (List Char)) (basicCode : List Char) (st : AgState) : AgState :=
  if st.plan.length ≤ st.currentTaskIndex then { st with completed := true }
  else
    match llm with
    | some content => { st with codeString := some (extractCoder content basicCode) }
    | none => { st with codeString := some basicCode }

/-- `code_execution_node` (agent.py lines 211-239).  The guard on line 215
is `if not state["code_string"]`, a Python truthiness test: the node
returns the state untouched both when `code_string` is `None` and when
it is the empty string (reachable, e.g., when the revision extraction of
a backtick-only response strips to nothing).  Otherwise it appends the
attempt (task, code, result) to the log and updates the
consecutive-error counter — increment on failure, reset to 0 on
success.  `r` is the record returned by `safe_code_execution`. -/
def codeExecutionNode (r : ExecResult) (st : AgState) : AgState :=
  match st.codeString with
  | none => st
  | some code =>
    if code.isEmpty then st
    else
      let rec0 : TaskRecord := ⟨st.plan.getD st.currentTaskIndex default, code, r⟩
      let st1 := { st with executionResults := st.executionResults ++ [rec0] }
      if !r.success then { st1 with errorCount := st1.errorCount + 1 }
      else { st1 with errorCount := 0 }

/-- `decide_after_execution` (agent.py lines 395-412). -/
def decideAfterExecution (st : AgState) : Route :=
  match st.executionResults.getLast? with
  | none => .errorEnd
  | some lastRec =>
    if !lastRec.result.success then
      if st.maxRetries ≤ st.errorCount then .nextTask else .retry
    else .nextTask

/-- `code_revision_node` (agent.py lines 241-303): replace `code_string`
with the revision-path extraction of the LLM response; when the call
raises, the state (and in particular the previous code) is kept. -/
def codeRevisionNode (llm : Option (List Char)) (st : AgState) : AgState :=
  match llm with
  | some content => { st with codeString := some (extractRevision content) }
  | none => st

/-- `task_manager_node` (agent.py lines 414-425): when the last attempt
succeeded or the retry limit is reached, advance the cursor and reset the
error counter. -/
def taskManagerNode (st : AgState) : AgState :=
  match st.executionResults.getLast? with
  | none => st
  | some lastRec =>
    if lastRec.result.success || st.maxRetries ≤ st.errorCount then
      { st with currentTaskIndex := st.currentTaskIndex + 1, errorCount := 0 }
    else st

/-- `decide_next_action` (agent.py lines 427-432). -/
def decideNextAction (st : AgState) : Bool :=
  st.plan.length ≤ st.currentTaskIndex

/-- The per-task execute/revise cycle of the graph, entered on the
`coder → code_execution` edge and left through `task_manager` (or the
`"error"` edge).  `execOut n` is the result `safe_code_execution` returns
on the n-th executor call of the run (`n` = length of the log so far);
`revLlm n` is the revision LLM response at that point.  The fuel mirrors
the recursion limit; alongside the final state the observed
`error_count` at each `decide_after_execution` call is returned. -/
def execPhase (execOut : Nat → ExecResult) (revLlm : Nat → Option (List Char)) :
    Nat → AgState → AgState × List Nat
  | 0, st => (st, [])
  | fuel + 1, st =>
    let st1 := codeExecutionNode (execOut st.executionResults.length) st
    match decideAfterExecution st1 with
    | .retry =>
      let next := execPhase execOut revLlm fuel (codeRevisionNode (revLlm st1.executionResults.length) st1)
      (next.1, st1.errorCount :: next.2)
    | .nextTask => (taskManagerNode st1, [st1.errorCount])
    | .errorEnd => (st1, [st1.errorCount])

/-- A concrete always-failing executor result. -/
def failRes : ExecResult :=
  { success := false, output := [], error := "boom".data, figures := [], vars := [] }

/-- A concrete initial per-task state: plan of five tasks, cursor at 0,
code synthesized, fresh counters, retry limit 3 as set by `planner_node`. -/
def stExample : AgState :=
  { plan := generateAnalysisTasks (getDataSummary ⟨[], []⟩)
    currentTaskIndex := 0
    codeString := some ("df.head()".data)
    executionResults := []
    errorCount := 0
    maxRetries := 3
    completed := false }

/-- A successful executor result used in closed instantiations. -/
def okRes : ExecResult :=
  { success := true, output := "done".data, error := [], figures := [], vars := [] }

/-- A state whose last logged attempt succeeded, so `task_manager_node`
advances from it. -/
def stAfterSuccess : AgState :=
  { stExample with executionResults := [⟨basicInfoTask, "df.head()".data, okRes⟩] }

/-- An execution outcome that raised, with distinct stdout and stderr
contents, so that the two buffers are observably different. -/
def raisedOutcome : ExecOutcome :=
  { raised := some ("KeyError: 'missing'".data)
    globalsAfter := initGlobals
    stdout := "partial stdout".data
    stderr := "Traceback text".data }

/-- A tiny dataset with two rows, one of them null in column `a`. -/
def dfWithNull : DataFrame :=
  ⟨[("a", .numeric "float64")], [[some "1.5"], [none]]⟩

/-- The abstract value of a bound Plotly figure object. -/
def plotlyFigVal : PyVal :=
  { typeStr := "<class 'plotly.graph_objs._figure.Figure'>".data
    hasToDict := true, hasShow := true, hasData := true
    reprStr := "Figure".data }

/-- An outcome where the code bound a real chart object and other variables
into the namespace and then raised. -/
def raisedWithFigure : ExecOutcome :=
  { raised := some ("ValueError: boom".data)
    globalsAfter := initGlobals ++ [("fig", plotlyFigVal), ("tmp", builtinVal "tmp")]
    stdout := [], stderr := [] }

/-! ## Supporting lemmas -/

lemma padTasks_length (n : Nat) (ts : List Task) (h1 : ts.length ≤ 5)
    (h2 : 5 ≤ ts.length + n) : (padTasks n ts).length = 5 := by
  induction n generalizing ts with
  | zero => simp [padTasks]; omega
  | succ m ih =>
    by_cases hlt : ts.length < 5
    · rw [padTasks, if_pos hlt]
      exact ih (ts ++ [padTask ts.length]) (by simp; omega) (by simp; omega)
    · rw [padTasks, if_neg hlt]; omega

lemma generateAnalysisTasks_length (s : Summary) : (generateAnalysisTasks s).length = 5 := by
  unfold generateAnalysisTasks
  exact padTasks_length 5 _ (by simp [List.length_take]) (by omega)

lemma nullCountOf_le (cells : List (Option String)) : nullCountOf cells ≤ cells.length :=
  List.length_filter_le _ _

lemma colCells_length (df : DataFrame) (j : Nat) :
    (df.colCells j).length = df.rows.length := by
  simp [DataFrame.colCells]

lemma lookupAssoc_eq_none (l : List (String × PyVal)) (n : String)
    (h : n ∉ l.map Prod.fst) : lookupAssoc l n = none := by
  induction l with
  | nil => rfl
  | cons kv rest ih =>
    simp only [List.map_cons, List.mem_cons] at h
    push_neg at h
    rw [lookupAssoc, if_neg (fun hkn => h.1 hkn.symm)]
    exact ih h.2

/-! ## Claims -/

/-- C2.  For every Profile — every dictionary produced by `get_data_summary`,
including one from a dataset with no numeric and no categorical columns,
and in fact for every well-typed summary value at all — the plan produced
by `generate_analysis_tasks` has length exactly 5, and so does the plan
stored by `planner_node` after its additional truncation to 10. -/
theorem c2_plan_length_invariant :
    ∀ (df : DataFrame) (st : AgState) (s : Summary),
      (plannerNode (getDataSummary df) st).plan.length = 5 ∧
      (generateAnalysisTasks s).length = 5 := by
  intro df st s
  refine ⟨?_, generateAnalysisTasks_length s⟩
  show ((generateAnalysisTasks (getDataSummary df)).take 10).length = 5
  simp [List.length_take, generateAnalysisTasks_length]

/-- C3 (as stated) is false on the code: the body of `safe_code_execution`
is guarded by `except Exception` (tools.py line 164), which does not
catch a `BaseException` raised by the executed code — reachable because
`__import__` is allow-listed (tools.py line 88), so
`__import__('sys').exit()` raises `SystemExit` through `exec`.  Here a
run whose code raises `SystemExit` makes the call propagate an error
even though the dataset copy succeeded. -/
theorem c3_exception_boundary_counterexample :
    safeCodeExecutionCall (Except.ok dfWithNull)
      (fun _ => ExecTermination.escaped ("SystemExit".data)) none
      = Except.error ("SystemExit".data) := by
  rfl

/-- C3 (amended).  For every code behaviour that terminates normally or by
raising an `Exception` — the class `except Exception` catches —
`safe_code_execution` returns a structured `ExecResult` record (the
`success`, `output`, `error`, `figures`, `variables` fields are the
record's components) rather than raising; what may propagate past its
boundary is a host-level failure of the dataset copy itself, or a
`BaseException` outside `Exception` (such as `SystemExit`) raised by
the executed code. -/
theorem c3_exception_boundary_amended :
    (∀ (run : DataFrame → ExecTermination) (taskInfo : Option Task)
        (dfCopy : DataFrame) (out : ExecOutcome),
        run dfCopy = .handled out →
        safeCodeExecutionCall (Except.ok dfCopy) run taskInfo =
          Except.ok (safeCodeExecution out taskInfo)) ∧
    (∀ (run : DataFrame → ExecTermination) (taskInfo : Option Task) (e : List Char),
        safeCodeExecutionCall (Except.error e) run taskInfo = Except.error e) ∧
    (∀ (run : DataFrame → ExecTermination) (taskInfo : Option Task)
        (dfCopy : DataFrame) (e : List Char),
        run dfCopy = .escaped e →
        safeCodeExecutionCall (Except.ok dfCopy) run taskInfo = Except.error e) := by
  refine ⟨?_, fun _ _ _ => rfl, ?_⟩
  · intro run taskInfo dfCopy out h
    show (match run dfCopy with
      | ExecTermination.handled out => Except.ok (safeCodeExecution out taskInfo)
      | ExecTermination.escaped msg => Except.error msg)
      = Except.ok (safeCodeExecution out taskInfo)
    rw [h]
  · intro run taskInfo dfCopy e h
    show (match run dfCopy with
      | ExecTermination.handled out => Except.ok (safeCodeExecution out taskInfo)
      | ExecTermination.escaped msg => Except.error msg)
      = Except.error e
    rw [h]

/-- Witness for the amended C3: a handled raise yields an `ok` record and
an escaping `SystemExit` yields an error, at concrete runs. -/
theorem c3_exception_boundary_witness :
    safeCodeExecutionCall (Except.ok dfWithNull)
      (fun _ => ExecTermination.handled raisedOutcome) none
      = Except.ok (safeCodeExecution raisedOutcome none) ∧
    safeCodeExecutionCall (Except.ok dfWithNull)
      (fun _ => ExecTermination.escaped ("KeyboardInterrupt".data)) none
      = Except.error ("KeyboardInterrupt".data) :=
  ⟨c3_exception_boundary_amended.1 _ none dfWithNull raisedOutcome rfl,
   c3_exception_boundary_amended.2.2 _ none dfWithNull ("KeyboardInterrupt".data) rfl⟩

/-- C4.  After any successful execution — the node actually executes only
when the code string is set and non-empty, by the truthiness guard on
agent.py line 215 — the consecutive-error counter is 0; whenever
`task_manager_node` advances the cursor it resets the counter to 0; and
`coder_node` — the synthesis step the pipeline enters next — leaves the
counter untouched, so the next task's synthesis begins with counter 0. -/
theorem c4_counter_reset :
    (∀ (r : ExecResult) (st : AgState) (code : List Char),
        st.codeString = some code → code ≠ [] → r.success = true →
        (codeExecutionNode r st).errorCount = 0) ∧
    (∀ st : AgState, (taskManagerNode st).currentTaskIndex ≠ st.currentTaskIndex →
        (taskManagerNode st).errorCount = 0) ∧
    (∀ (llm : Option (List Char)) (basicCode : List Char) (st : AgState),
        (coderNode llm basicCode st).errorCount = st.errorCount) := by
  refine ⟨?_, ?_, ?_⟩
  · intro r st code hc hne hs
    have hie : code.isEmpty = false := by
      cases code with
      | nil => exact absurd rfl hne
      | cons _ _ => rfl
    simp [codeExecutionNode, hc, hie, hs]
  · intro st h
    unfold taskManagerNode at *
    cases hl : st.executionResults.getLast? with
    | none => rw [hl] at h; exact absurd rfl h
    | some lastRec =>
      rw [hl] at h
      dsimp only at h ⊢
      by_cases hcond : (lastRec.result.success || decide (st.maxRetries ≤ st.errorCount)) = true
      · rw [if_pos hcond]
      · rw [if_neg hcond] at h; exact absurd rfl h
  · intro llm basicCode st
    unfold coderNode
    by_cases h : st.plan.length ≤ st.currentTaskIndex
    · rw [if_pos h]
    · rw [if_neg h]; cases llm <;> rfl

/-- Witness for C4 at concrete inputs: a successful attempt zeroes the
counter, an advancing `task_manager_node` zeroes it, and `coder_node`
preserves it. -/
theorem c4_counter_reset_witness :
    (codeExecutionNode okRes stExample).errorCount = 0 ∧
    (taskManagerNode stAfterSuccess).errorCount = 0 ∧
    (coderNode none ("x = 1".data) stExample).errorCount = stExample.errorCount :=
  ⟨c4_counter_reset.1 okRes stExample ("df.head()".data) rfl (by decide) rfl,
   c4_counter_reset.2.1 stAfterSuccess (by decide),
   c4_counter_reset.2.2 none ("x = 1".data) stExample⟩

/-- C5.  Whenever execution of the code fragment raises, the returned
record's `error` field is the exception's textual description and its
`output` field is the captured stderr buffer, not the stdout buffer. -/
theorem c5_failure_output_from_stderr :
    ∀ (out : ExecOutcome) (taskInfo : Option Task) (e : List Char),
      out.raised = some e →
      (safeCodeExecution out taskInfo).error = e ∧
      (safeCodeExecution out taskInfo).output = out.stderr := by
  intro out taskInfo e h
  simp [safeCodeExecution, h]

/-- Witness for C5: on `raisedOutcome` the error text is `str(e)` and the
output is the stderr buffer, which differs from the stdout buffer. -/
theorem c5_failure_output_from_stderr_witness :
    (safeCodeExecution raisedOutcome none).error = "KeyError: 'missing'".data ∧
    (safeCodeExecution raisedOutcome none).output = "Traceback text".data ∧
    "Traceback text".data ≠ "partial stdout".data :=
  ⟨(c5_failure_output_from_stderr raisedOutcome none _ rfl).1,
   (c5_failure_output_from_stderr raisedOutcome none _ rfl).2,
   by decide⟩

/-- C6.  `get_data_summary` is total on the embedded dataset type (it is a
Lean function, so it completes for every dataset, including zero rows,
zero columns and all-null columns); every reported null count is at most
the row count; and the empty dataset yields empty stats maps — an empty
`null_counts` dict and no `numeric_stats`/`categorical_info` keys —
rather than an error. -/
theorem c6_profiler_totality :
    (∀ (df : DataFrame) (p : String × Nat),
        p ∈ (getDataSummary df).nullCounts → p.2 ≤ (getDataSummary df).shape.1) ∧
    ((getDataSummary ⟨[], []⟩).nullCounts = [] ∧
     (getDataSummary ⟨[], []⟩).numericStats = none ∧
     (getDataSummary ⟨[], []⟩).categoricalInfo = none) := by
  constructor
  · intro df p hp
    have hnc : (getDataSummary df).nullCounts =
        df.cols.enum.map (fun jc => (jc.2.1, nullCountOf (df.colCells jc.1))) := rfl
    have hsh : (getDataSummary df).shape.1 = df.rows.length := rfl
    rw [hnc] at hp
    rcases List.mem_map.1 hp with ⟨jc, _, rfl⟩
    rw [hsh]
    calc nullCountOf (df.colCells jc.1) ≤ (df.colCells jc.1).length := nullCountOf_le _
      _ = df.rows.length := colCells_length df jc.1
  · exact ⟨rfl, rfl, rfl⟩

/-- Witness for C6: on `dfWithNull` the reported null count of column `a`
is 1, which is at most the row count 2. -/
theorem c6_profiler_totality_witness :
    ("a", 1) ∈ (getDataSummary dfWithNull).nullCounts ∧
    (1 : Nat) ≤ (getDataSummary dfWithNull).shape.1 :=
  ⟨by decide, c6_profiler_totality.1 dfWithNull ("a", 1) (by decide)⟩

/-- C10.  Whenever `safe_code_execution` returns a record with
`success = false`, its figures list and its variables mapping are both
empty, whatever bindings (including chart objects) the code had made
before raising: artifact collection runs only on the no-raise path. -/
theorem c10_failure_empty_artifacts :
    ∀ (out : ExecOutcome) (taskInfo : Option Task),
      (safeCodeExecution out taskInfo).success = false →
      (safeCodeExecution out taskInfo).figures = [] ∧
      (safeCodeExecution out taskInfo).vars = [] := by
  intro out taskInfo h
  cases hr : out.raised with
  | some e => simp [safeCodeExecution, hr]
  | none => simp [safeCodeExecution, hr] at h

/-- Witness for C10: the binding `fig` would be classified as a figure, yet
the failed attempt reports no figures and no variables. -/
theorem c10_failure_empty_artifacts_witness :
    isPlotlyFigure plotlyFigVal = true ∧
    (safeCodeExecution raisedWithFigure none).figures = [] ∧
    (safeCodeExecution raisedWithFigure none).vars = [] :=
  ⟨by decide,
   (c10_failure_empty_artifacts raisedWithFigure none (by decide)).1,
   (c10_failure_empty_artifacts raisedWithFigure none (by decide)).2⟩

/-- C7.  Executing code that mutates the dataset handle bound to `df` never
changes the dataset object held by the controller: the executed code only
ever rewrites the freshly copied object, so across two sequential calls
on the same original reference, both executions observe the original
value and the controller's object still holds it afterwards. -/
theorem c7_sandbox_isolation :
    ∀ (heap : List DataFrame) (dfRef : Nat) (f g : DataFrame → DataFrame),
      dfRef < heap.length →
      (safeCodeExecutionHeap heap dfRef f).2 = heap.getD dfRef default ∧
      (safeCodeExecutionHeap (safeCodeExecutionHeap heap dfRef f).1 dfRef g).2 =
        heap.getD dfRef default ∧
      (safeCodeExecutionHeap heap dfRef f).1.getD dfRef default =
        heap.getD dfRef default ∧
      (safeCodeExecutionHeap (safeCodeExecutionHeap heap dfRef f).1 dfRef g).1.getD
          dfRef default = heap.getD dfRef default := by
  intro heap dfRef f g href
  have step : ∀ (h : List DataFrame) (m : DataFrame → DataFrame), dfRef < h.length →
      (safeCodeExecutionHeap h dfRef m).1.getD dfRef default = h.getD dfRef default ∧
      (safeCodeExecutionHeap h dfRef m).2 = h.getD dfRef default ∧
      (safeCodeExecutionHeap h dfRef m).1.length = h.length + 1 := by
    intro h m hm
    refine ⟨?_, rfl, by simp [safeCodeExecutionHeap]⟩
    show ((h ++ [h.getD dfRef default]).set h.length
      (m (h.getD dfRef default))).getD dfRef default = h.getD dfRef default
    rw [List.getD_eq_getElem?_getD, List.getElem?_set_ne (by omega),
      List.getElem?_append_left hm, ← List.getD_eq_getElem?_getD]
  obtain ⟨h1g, h1o, h1l⟩ := step heap f href
  obtain ⟨h2g, h2o, _⟩ := step (safeCodeExecutionHeap heap dfRef f).1 g (by omega)
  exact ⟨h1o, by rw [h2o, h1g], h1g, by rw [h2g, h1g]⟩

/-- Witness for C7 at a concrete heap: a call whose code overwrites the
copy with an empty frame leaves the caller's object intact twice over. -/
theorem c7_sandbox_isolation_witness :
    (safeCodeExecutionHeap [dfWithNull] 0 (fun _ => default)).1.getD 0 default = dfWithNull ∧
    (safeCodeExecutionHeap
      (safeCodeExecutionHeap [dfWithNull] 0 (fun _ => default)).1 0
      (fun _ => default)).1.getD 0 default = dfWithNull :=
  ⟨(c7_sandbox_isolation [dfWithNull] 0 (fun _ => default) (fun _ => default)
      (by decide)).2.2.1,
   (c7_sandbox_isolation [dfWithNull] 0 (fun _ => default) (fun _ => default)
      (by decide)).2.2.2⟩

/-- C8.  Executing code whose first evaluated expression references a bare
name outside the allow-listed safe builtins and the exposed handles
(`__builtins__`, `pd`, `px`, `go`, `ff`, `df`, `np`) fails as a
recoverable task error: the call still returns a record, with
`success = false` and the `NameError` text in `error`. -/
theorem c8_namespace_closure :
    ∀ (n : String) (taskInfo : Option Task),
      n ∉ excludedVarNames → n ∉ safeBuiltinNames →
      (runSandboxed [.exprStmt (.name n)] taskInfo).success = false ∧
      (runSandboxed [.exprStmt (.name n)] taskInfo).error = nameErrorMsg n := by
  intro n taskInfo h1 h2
  have hmem : n ∉ initGlobals.map Prod.fst := by
    intro hm
    apply h1
    simp [initGlobals] at hm
    simp [excludedVarNames]
    tauto
  have hla : lookupAssoc initGlobals n = none := lookupAssoc_eq_none _ _ hmem
  have hln : lookupName initGlobals n = none := by
    simp [lookupName, hla, h2]
  have hev : evalExpr initGlobals (.name n) = .error (nameErrorMsg n) := by
    simp [evalExpr, hln]
  simp [runSandboxed, execStmts, hev, safeCodeExecution]

/-- Witness for C8: referencing `os` — outside both allow-lists — yields a
failed record carrying the `NameError` text. -/
theorem c8_namespace_closure_witness :
    (runSandboxed [.exprStmt (.name "os")] none).success = false ∧
    (runSandboxed [.exprStmt (.name "os")] none).error = nameErrorMsg "os" :=
  c8_namespace_closure "os" none (by decide) (by decide)

/-! ### Lemmas on the per-task execute/revise cycle (for the retry bound) -/

lemma codeExecutionNode_fail (r : ExecResult) (st : AgState) (code : List Char)
    (hc : st.codeString = some code) (hne : code ≠ []) (hr : r.success = false) :
    codeExecutionNode r st =
      { st with
        executionResults := st.executionResults ++
          [⟨st.plan.getD st.currentTaskIndex default, code, r⟩],
        errorCount := st.errorCount + 1 } := by
  have hie : code.isEmpty = false := by
    cases code with
    | nil => exact absurd rfl hne
    | cons _ _ => rfl
  simp [codeExecutionNode, hc, hie, hr]

lemma decideAfterExecution_fail_retry (st : AgState) (rec0 : TaskRecord)
    (hl : st.executionResults.getLast? = some rec0)
    (hf : rec0.result.success = false) (hlt : st.errorCount < st.maxRetries) :
    decideAfterExecution st = .retry := by
  simp [decideAfterExecution, hl, hf, Nat.not_le.2 hlt]

lemma decideAfterExecution_fail_next (st : AgState) (rec0 : TaskRecord)
    (hl : st.executionResults.getLast? = some rec0)
    (hf : rec0.result.success = false) (hge : st.maxRetries ≤ st.errorCount) :
    decideAfterExecution st = .nextTask := by
  simp [decideAfterExecution, hl, hf, hge]

lemma taskManagerNode_advance (st : AgState) (rec0 : TaskRecord)
    (hl : st.executionResults.getLast? = some rec0)
    (hge : st.maxRetries ≤ st.errorCount) :
    taskManagerNode st =
      { st with currentTaskIndex := st.currentTaskIndex + 1, errorCount := 0 } := by
  simp [taskManagerNode, hl, hge]

lemma codeRevisionNode_frame (o : Option (List Char)) (st : AgState) :
    (codeRevisionNode o st).executionResults = st.executionResults ∧
    (codeRevisionNode o st).errorCount = st.errorCount ∧
    (codeRevisionNode o st).maxRetries = st.maxRetries ∧
    (codeRevisionNode o st).currentTaskIndex = st.currentTaskIndex := by
  cases o <;> simp [codeRevisionNode]

lemma codeRevisionNode_codeString (o : Option (List Char)) (st : AgState)
    (code : List Char) (hc : st.codeString = some code) (hne : code ≠ [])
    (ho : ∀ content, o = some content → extractRevision content ≠ []) :
    ∃ c, (codeRevisionNode o st).codeString = some c ∧ c ≠ [] := by
  cases o with
  | none => exact ⟨code, by simpa [codeRevisionNode] using hc, hne⟩
  | some content =>
    exact ⟨extractRevision content, by simp [codeRevisionNode], ho content rfl⟩

lemma execPhase_step_next (execOut : Nat → ExecResult) (revLlm : Nat → Option (List Char))
    (f : Nat) (st : AgState)
    (hd : decideAfterExecution (codeExecutionNode (execOut st.executionResults.length) st)
        = .nextTask) :
    execPhase execOut revLlm (f + 1) st =
      (taskManagerNode (codeExecutionNode (execOut st.executionResults.length) st),
       [(codeExecutionNode (execOut st.executionResults.length) st).errorCount]) := by
  simp only [execPhase]
  rw [hd]

lemma execPhase_step_retry (execOut : Nat → ExecResult) (revLlm : Nat → Option (List Char))
    (f : Nat) (st : AgState)
    (hd : decideAfterExecution (codeExecutionNode (execOut st.executionResults.length) st)
        = .retry) :
    execPhase execOut revLlm (f + 1) st =
      ((execPhase execOut revLlm f
          (codeRevisionNode
            (revLlm (codeExecutionNode (execOut st.executionResults.length) st).executionResults.length)
            (codeExecutionNode (execOut st.executionResults.length) st))).1,
       (codeExecutionNode (execOut st.executionResults.length) st).errorCount ::
       (execPhase execOut revLlm f
          (codeRevisionNode
            (revLlm (codeExecutionNode (execOut st.executionResults.length) st).executionResults.length)
            (codeExecutionNode (execOut st.executionResults.length) st))).2) := by
  simp only [execPhase]
  rw [hd]

lemma range_map_shift (e k : Nat) :
    (e + 1) :: List.map (fun i => e + 1 + i + 1) (List.range k)
      = List.map (fun i => e + i + 1) (List.range (k + 1)) := by
  rw [List.range_succ_eq_map, List.map_cons, List.map_map]
  congr 1
  exact List.map_congr_left fun a _ => by
    show e + 1 + a + 1 = e + (a + 1) + 1
    omega

/-- On an always-failing executor, starting `k` failures away from the retry
limit and with a non-empty current code string whose revisions stay
non-empty (otherwise the truthiness guard of agent.py line 215 skips
execution), the cycle performs exactly `k` more executions, then
advances the cursor by one and zeroes the counter; the error counts
seen at the decision points are `errorCount+1, ..., errorCount+k`. -/
lemma execPhase_always_fail (execOut : Nat → ExecResult) (revLlm : Nat → Option (List Char))
    (hfail : ∀ n, (execOut n).success = false)
    (hrev : ∀ n content, revLlm n = some content → extractRevision content ≠ []) :
    ∀ (k f : Nat) (st : AgState) (code : List Char),
      st.codeString = some code → code ≠ [] →
      st.errorCount + k = st.maxRetries →
      0 < k → k ≤ f →
      (execPhase execOut revLlm f st).1.executionResults.length
          = st.executionResults.length + k ∧
      (execPhase execOut revLlm f st).1.currentTaskIndex = st.currentTaskIndex + 1 ∧
      (execPhase execOut revLlm f st).1.errorCount = 0 ∧
      (execPhase execOut revLlm f st).2
          = (List.range k).map (fun i => st.errorCount + i + 1) := by
  intro k
  induction k with
  | zero => intro f st code _ _ _ h0 _; exact absurd h0 (by omega)
  | succ k ih =>
    intro f st code hc hcne hsum _ hkf
    obtain ⟨f', rfl⟩ : ∃ f', f = f' + 1 := ⟨f - 1, by omega⟩
    have h1 : codeExecutionNode (execOut st.executionResults.length) st =
        { st with
          executionResults := st.executionResults ++
            [⟨st.plan.getD st.currentTaskIndex default, code,
              execOut st.executionResults.length⟩],
          errorCount := st.errorCount + 1 } :=
      codeExecutionNode_fail _ st code hc hcne (hfail _)
    have hlast : (codeExecutionNode (execOut st.executionResults.length) st).executionResults.getLast?
        = some ⟨st.plan.getD st.currentTaskIndex default, code,
            execOut st.executionResults.length⟩ := by
      rw [h1]; exact List.getLast?_concat _
    cases k with
    | zero =>
      have hge : (codeExecutionNode (execOut st.executionResults.length) st).maxRetries ≤
          (codeExecutionNode (execOut st.executionResults.length) st).errorCount := by
        rw [h1]; simp; omega
      have hd : decideAfterExecution (codeExecutionNode (execOut st.executionResults.length) st)
          = .nextTask :=
        decideAfterExecution_fail_next _ _ hlast (hfail _) hge
      rw [execPhase_step_next execOut revLlm f' st hd,
        taskManagerNode_advance _ _ hlast hge, h1]
      refine ⟨by simp, by simp, by simp, ?_⟩
      rw [show List.range 1 = [0] from rfl]
      simp
    | succ m =>
      have hlt : (codeExecutionNode (execOut st.executionResults.length) st).errorCount <
          (codeExecutionNode (execOut st.executionResults.length) st).maxRetries := by
        rw [h1]; simp; omega
      have hd : decideAfterExecution (codeExecutionNode (execOut st.executionResults.length) st)
          = .retry :=
        decideAfterExecution_fail_retry _ _ hlast (hfail _) hlt
      rw [execPhase_step_retry execOut revLlm f' st hd]
      obtain ⟨hres, herr, hmax, hidx⟩ :=
        codeRevisionNode_frame
          (revLlm (codeExecutionNode (execOut st.executionResults.length) st).executionResults.length)
          (codeExecutionNode (execOut st.executionResults.length) st)
      obtain ⟨c', hc', hcne'⟩ :=
        codeRevisionNode_codeString
          (revLlm (codeExecutionNode (execOut st.executionResults.length) st).executionResults.length)
          (codeExecutionNode (execOut st.executionResults.length) st) code
          (by rw [h1]; exact hc) hcne
          (fun content h => hrev _ content h)
      obtain ⟨ihlen, ihidx, iherr, ihtr⟩ :=
        ih f'
          (codeRevisionNode
            (revLlm (codeExecutionNode (execOut st.executionResults.length) st).executionResults.length)
            (codeExecutionNode (execOut st.executionResults.length) st))
          c' hc' hcne'
          (by rw [herr, hmax, h1]; simp; omega)
          (by omega) (by omega)
    -- assemble the four conjuncts
      refine ⟨?_, ?_, iherr, ?_⟩
      · rw [ihlen, hres, h1]; simp; omega
      · rw [ihidx, hidx, h1]
      · rw [ihtr, herr, h1]
        have hcnt : (({ st with
            executionResults := st.executionResults ++
              [⟨st.plan.getD st.currentTaskIndex default, code,
                execOut st.executionResults.length⟩],
            errorCount := st.errorCount + 1 } : AgState)).errorCount = st.errorCount + 1 := rfl
        rw [hcnt]
        exact range_map_shift st.errorCount (m + 1)

/-- C1 (as stated) is false on the code: with the always-failing executor,
retry limit `max_retries = 3` and a fresh task, the cursor advances after
exactly 3 executor invocations — the log for the task holds 3 attempts,
not `retry_limit + 1 = 4`. -/
theorem c1_retry_bound_counterexample :
    (execPhase (fun _ => failRes) (fun _ => none) 10 stExample).1.currentTaskIndex = 1 ∧
    (execPhase (fun _ => failRes) (fun _ => none) 10 stExample).1.executionResults.length = 3 ∧
    ¬ (execPhase (fun _ => failRes) (fun _ => none) 10 stExample).1.executionResults.length
        = stExample.maxRetries + 1 := by
  decide

/-- C1 (amended).  For a task whose execution always fails, with
`retry_limit = max_retries = 3` and with the synthesized code and every
revised code non-empty (an empty code string makes the node skip
execution outright, by the truthiness guard of agent.py line 215), the
Executor is invoked exactly `retry_limit` times (1 initial attempt +
`retry_limit - 1` revisions) before the task cursor advances by one, and
the consecutive-error counter at the `decide_after_execution` decision
points reads `1, 2, 3` — never exceeding `retry_limit`. -/
theorem c1_retry_bound_amended :
    ∀ (execOut : Nat → ExecResult) (revLlm : Nat → Option (List Char))
      (st : AgState) (code : List Char) (f : Nat),
      (∀ n, (execOut n).success = false) →
      (∀ n content, revLlm n = some content → extractRevision content ≠ []) →
      st.codeString = some code →
      code ≠ [] →
      st.errorCount = 0 →
      st.maxRetries = 3 →
      3 ≤ f →
      (execPhase execOut revLlm f st).1.executionResults.length
          = st.executionResults.length + 3 ∧
      (execPhase execOut revLlm f st).1.currentTaskIndex = st.currentTaskIndex + 1 ∧
      (execPhase execOut revLlm f st).2 = [1, 2, 3] ∧
      ∀ c ∈ (execPhase execOut revLlm f st).2, c ≤ 3 := by
  intro execOut revLlm st code f hfail hrev hc hcne he hm hf
  obtain ⟨hlen, hidx, _, htr⟩ :=
    execPhase_always_fail execOut revLlm hfail hrev 3 f st code hc hcne (by omega) (by omega) hf
  have htr3 : (execPhase execOut revLlm f st).2 = [1, 2, 3] := by
    rw [htr, he]; rfl
  refine ⟨hlen, hidx, htr3, ?_⟩
  intro c hcmem
  rw [htr3] at hcmem
  simp at hcmem
  rcases hcmem with rfl | rfl | rfl <;> omega

/-! ### Lemmas on fenced-code-block extraction -/

lemma fenceMarker_eq : fenceMarker = btick :: btick :: btick :: [] := by decide

lemma pyFenceTag_eq : pyFenceTag = btick :: "``python".data := by decide

lemma startsWith_append_self (p z : List Char) : startsWith (p ++ z) p = true := by
  induction p with
  | nil => cases z <;> rfl
  | cons c p' ih => simp [startsWith, ih]

lemma findSub_of_startsWith (s p : List Char) (h : startsWith s p = true) :
    findSub s p = some 0 := by
  cases s <;> simp [findSub, h]

lemma findSub_append_btick (a z q : List Char) (ha : ∀ c ∈ a, c ≠ btick) :
    findSub (a ++ z) (btick :: q) = (findSub z (btick :: q)).map (· + a.length) := by
  induction a with
  | nil =>
    cases h : findSub z (btick :: q) <;> simp [h]
  | cons c t ih =>
    have hc : c ≠ btick := ha c (by simp)
    have ht : ∀ x ∈ t, x ≠ btick := fun x hx => ha x (by simp [hx])
    have hsw : startsWith (c :: (t ++ z)) (btick :: q) = false := by
      simp [startsWith, hc]
    show findSub (c :: (t ++ z)) (btick :: q) = _
    rw [findSub, hsw]
    simp only [Bool.false_eq_true, if_false]
    rw [ih ht]
    cases h : findSub z (btick :: q) <;> simp [h] <;> omega

lemma startsWith_tag_marker (s : List Char) (h : startsWith s pyFenceTag = true) :
    startsWith s fenceMarker = true := by
  rcases s with _ | ⟨c1, _ | ⟨c2, _ | ⟨c3, t⟩⟩⟩ <;>
    simp [pyFenceTag_eq, fenceMarker_eq, startsWith] at h ⊢ <;> tauto

lemma findSub_marker_none_tag (s : List Char) (h : findSub s fenceMarker = none) :
    findSub s pyFenceTag = none := by
  induction s with
  | nil => decide
  | cons c t ih =>
    rw [findSub] at h ⊢
    by_cases h1 : startsWith (c :: t) fenceMarker = true
    · rw [if_pos h1] at h; cases h
    · rw [if_neg h1] at h
      have ht : findSub t fenceMarker = none := by
        cases hf : findSub t fenceMarker with
        | none => rfl
        | some v => rw [hf] at h; cases h
      have h2 : ¬ startsWith (c :: t) pyFenceTag = true := fun hsw =>
        h1 (startsWith_tag_marker _ hsw)
      rw [if_neg h2, ih ht]
      rfl

lemma pyFind_eq_findSub (s pat : List Char) :
    pyFind s pat = (match findSub s pat with | some i => (i : Int) | none => -1) := by
  unfold pyFind pyFindFrom
  rw [List.drop_zero]
  cases findSub s pat <;> simp

lemma pySlice_extract (s y x z : List Char) (n : Nat)
    (hs : s = x ++ (y ++ z)) (hn : n = x.length) :
    pySlice s ((n : Nat) : Int) (((n + y.length : Nat) : Nat) : Int) = y := by
  subst hs hn
  unfold pySlice pyNormIdx
  have h0 : ¬ ((x.length : Int) < 0) := by omega
  have h0' : ¬ (((x.length + y.length : Nat) : Int) < 0) := by omega
  rw [if_neg h0, if_neg h0']
  have h1 : ((x.length : Int)).toNat = x.length := by omega
  have h2 : (((x.length + y.length : Nat) : Int)).toNat = x.length + y.length := by omega
  rw [h1, h2]
  have h3 : min x.length (x ++ (y ++ z)).length = x.length := by simp
  have h4 : min (x.length + y.length) (x ++ (y ++ z)).length = x.length + y.length := by
    simp [List.length_append]
  rw [h3, h4, ← List.append_assoc,
    show x.length + y.length = (x ++ y).length by simp,
    List.take_left, List.drop_left]

lemma pyFindFrom_after (s b c x : List Char) (n : Nat) (hb : ∀ ch ∈ b, ch ≠ btick)
    (hs : s = x ++ (b ++ (fenceMarker ++ c))) (hn : n = x.length) :
    pyFindFrom s fenceMarker n = ((n + b.length : Nat) : Int) := by
  subst hs hn
  unfold pyFindFrom
  rw [List.drop_left, fenceMarker_eq, findSub_append_btick _ _ _ hb,
    findSub_of_startsWith _ _ (startsWith_append_self _ _)]
  simp

lemma findSub_tag_at (a rest : List Char) (ha : ∀ ch ∈ a, ch ≠ btick) :
    findSub (a ++ (pyFenceTag ++ rest)) pyFenceTag = some a.length := by
  rw [pyFenceTag_eq, findSub_append_btick _ _ _ ha,
    findSub_of_startsWith _ _ (startsWith_append_self _ _)]
  simp

lemma findSub_marker_at (a rest : List Char) (ha : ∀ ch ∈ a, ch ≠ btick) :
    findSub (a ++ (fenceMarker ++ rest)) fenceMarker = some a.length := by
  rw [fenceMarker_eq, findSub_append_btick _ _ _ ha,
    findSub_of_startsWith _ _ (startsWith_append_self _ _)]
  simp

lemma extract_agree (content basicCode : List Char)
    (h : containsSub content fenceMarker = true) :
    extractCoder content basicCode = extractRevision content := by
  unfold extractCoder extractRevision
  by_cases h1 : containsSub content pyFenceTag = true
  · rw [if_pos h1, if_pos h1]
  · rw [if_neg h1, if_neg h1, if_pos h, if_pos h]

lemma extractRevision_tagged (a b c : List Char)
    (ha : ∀ ch ∈ a, ch ≠ btick) (hb : ∀ ch ∈ b, ch ≠ btick) :
    extractRevision (a ++ (pyFenceTag ++ (b ++ (fenceMarker ++ c)))) = pyStrip b := by
  have hfind : findSub (a ++ (pyFenceTag ++ (b ++ (fenceMarker ++ c)))) pyFenceTag
      = some a.length := findSub_tag_at _ _ ha
  have h1 : containsSub (a ++ (pyFenceTag ++ (b ++ (fenceMarker ++ c)))) pyFenceTag = true := by
    simp [containsSub, hfind]
  have h2 : pyFind (a ++ (pyFenceTag ++ (b ++ (fenceMarker ++ c)))) pyFenceTag
      = (a.length : Int) := by
    rw [pyFind_eq_findSub, hfind]
  have hcast : ((a.length : Int) + 9) = ((a.length + 9 : Nat) : Int) := by omega
  have htoNat : (((a.length + 9 : Nat) : Int)).toNat = a.length + 9 := by omega
  have hlen9 : (a ++ pyFenceTag).length = a.length + 9 := by
    simp [pyFenceTag]
  have h4 : pyFindFrom (a ++ (pyFenceTag ++ (b ++ (fenceMarker ++ c)))) fenceMarker
      (a.length + 9) = ((a.length + 9 + b.length : Nat) : Int) :=
    pyFindFrom_after _ b c (a ++ pyFenceTag) _ hb (by simp) hlen9.symm
  have h5 : pySlice (a ++ (pyFenceTag ++ (b ++ (fenceMarker ++ c))))
      ((a.length + 9 : Nat) : Int) ((a.length + 9 + b.length : Nat) : Int) = b :=
    pySlice_extract _ b (a ++ pyFenceTag) (fenceMarker ++ c) _ (by simp) hlen9.symm
  unfold extractRevision
  rw [if_pos h1, h2, hcast]
  dsimp only
  rw [htoNat, h4, h5]

lemma extractRevision_untagged (a b c : List Char)
    (ha : ∀ ch ∈ a, ch ≠ btick) (hb : ∀ ch ∈ b, ch ≠ btick)
    (hno : findSub (a ++ (fenceMarker ++ (b ++ (fenceMarker ++ c)))) pyFenceTag = none) :
    extractRevision (a ++ (fenceMarker ++ (b ++ (fenceMarker ++ c)))) = pyStrip b := by
  have hfind : findSub (a ++ (fenceMarker ++ (b ++ (fenceMarker ++ c)))) fenceMarker
      = some a.length := findSub_marker_at _ _ ha
  have h1 : containsSub (a ++ (fenceMarker ++ (b ++ (fenceMarker ++ c)))) pyFenceTag = false := by
    simp [containsSub, hno]
  have h1' : containsSub (a ++ (fenceMarker ++ (b ++ (fenceMarker ++ c)))) fenceMarker = true := by
    simp [containsSub, hfind]
  have h2 : pyFind (a ++ (fenceMarker ++ (b ++ (fenceMarker ++ c)))) fenceMarker
      = (a.length : Int) := by
    rw [pyFind_eq_findSub, hfind]
  have hcast : ((a.length : Int) + 3) = ((a.length + 3 : Nat) : Int) := by omega
  have htoNat : (((a.length + 3 : Nat) : Int)).toNat = a.length + 3 := by omega
  have hlen3 : (a ++ fenceMarker).length = a.length + 3 := by
    simp [fenceMarker]
  have h4 : pyFindFrom (a ++ (fenceMarker ++ (b ++ (fenceMarker ++ c)))) fenceMarker
      (a.length + 3) = ((a.length + 3 + b.length : Nat) : Int) :=
    pyFindFrom_after _ b c (a ++ fenceMarker) _ hb (by simp) hlen3.symm
  have h5 : pySlice (a ++ (fenceMarker ++ (b ++ (fenceMarker ++ c))))
      ((a.length + 3 : Nat) : Int) ((a.length + 3 + b.length : Nat) : Int) = b :=
    pySlice_extract _ b (a ++ fenceMarker) (fenceMarker ++ c) _ (by simp) hlen3.symm
  unfold extractRevision
  rw [if_neg (by simp [h1]), if_pos h1', h2, hcast]
  dsimp only
  rw [htoNat, h4, h5]

lemma extract_nofence (content basicCode : List Char)
    (h : findSub content fenceMarker = none) :
    extractCoder content basicCode = basicCode ∧
    extractRevision content = pyStrip content := by
  have h2 : findSub content pyFenceTag = none := findSub_marker_none_tag content h
  constructor
  · unfold extractCoder
    rw [if_neg (by simp [containsSub, h2]), if_neg (by simp [containsSub, h])]
  · unfold extractRevision
    rw [if_neg (by simp [containsSub, h2]), if_neg (by simp [containsSub, h])]

/-- C9 (as stated) is false on the code: a response with no fences at all is
not used verbatim on the revision path — `code_revision_node` applies
`content.strip()`, so surrounding whitespace is removed. -/
theorem c9_extraction_counterexample :
    containsSub (" x = 1 ".data) fenceMarker = false ∧
    extractRevision (" x = 1 ".data) ≠ " x = 1 ".data ∧
    extractRevision (" x = 1 ".data) = "x = 1".data := by
  decide

/-- C9 (amended).  Code-block extraction is asymmetric between the paths: a
response containing a python-tagged fence yields that block's contents
(whitespace-trimmed) on both paths — the python-tagged fence is preferred
over an untagged one; a response with only untagged fences yields the
first such block's contents (whitespace-trimmed) on both paths; and a
response with no fences at all is used, after trimming surrounding
whitespace, as the output on the revision path but is rejected in favor
of the deterministic baseline code on the synthesis path. -/
theorem c9_extraction_amended :
    (∀ content basicCode : List Char, findSub content fenceMarker = none →
        extractCoder content basicCode = basicCode ∧
        extractRevision content = pyStrip content) ∧
    (∀ a b c basicCode : List Char,
        (∀ ch ∈ a, ch ≠ btick) → (∀ ch ∈ b, ch ≠ btick) →
        extractCoder (a ++ (pyFenceTag ++ (b ++ (fenceMarker ++ c)))) basicCode = pyStrip b ∧
        extractRevision (a ++ (pyFenceTag ++ (b ++ (fenceMarker ++ c)))) = pyStrip b) ∧
    (∀ a b c basicCode : List Char,
        (∀ ch ∈ a, ch ≠ btick) → (∀ ch ∈ b, ch ≠ btick) →
        findSub (a ++ (fenceMarker ++ (b ++ (fenceMarker ++ c)))) pyFenceTag = none →
        extractCoder (a ++ (fenceMarker ++ (b ++ (fenceMarker ++ c)))) basicCode = pyStrip b ∧
        extractRevision (a ++ (fenceMarker ++ (b ++ (fenceMarker ++ c)))) = pyStrip b) := by
  refine ⟨extract_nofence, ?_, ?_⟩
  · intro a b c basicCode ha hb
    have hrev := extractRevision_tagged a b c ha hb
    have hmk : containsSub (a ++ (pyFenceTag ++ (b ++ (fenceMarker ++ c)))) fenceMarker
        = true := by
      have : findSub (a ++ (pyFenceTag ++ (b ++ (fenceMarker ++ c)))) fenceMarker ≠ none := by
        intro hnone
        have := findSub_marker_none_tag _ hnone
        rw [findSub_tag_at _ _ ha] at this
        cases this
      simp only [containsSub, Option.isSome]
      cases hf : findSub (a ++ (pyFenceTag ++ (b ++ (fenceMarker ++ c)))) fenceMarker
      · exact absurd hf this
      · rfl
    exact ⟨(extract_agree _ basicCode hmk).trans hrev, hrev⟩
  · intro a b c basicCode ha hb hno
    have hrev := extractRevision_untagged a b c ha hb hno
    have hmk : containsSub (a ++ (fenceMarker ++ (b ++ (fenceMarker ++ c)))) fenceMarker
        = true := by
      simp [containsSub, findSub_marker_at _ _ ha]
    exact ⟨(extract_agree _ basicCode hmk).trans hrev, hrev⟩

/-- Witness for the amended C9 at concrete responses: a fence-free response
keeps the baseline on the synthesis path and is trimmed on the revision
path; python-tagged and untagged blocks are extracted on both paths; and
a python-tagged block is preferred even when an untagged block precedes
it. -/
theorem c9_extraction_witness :
    extractCoder ("print(1)".data) ("BASE".data) = "BASE".data ∧
    extractRevision (" x = 1 ".data) = pyStrip (" x = 1 ".data) ∧
    extractRevision (("pre ".data) ++ (pyFenceTag ++ (("\ny = 2\n".data) ++
      (fenceMarker ++ (" post".data))))) = pyStrip ("\ny = 2\n".data) ∧
    extractCoder (("A ".data) ++ (fenceMarker ++ (("z = 3".data) ++
      (fenceMarker ++ ("!".data))))) ("B".data) = pyStrip ("z = 3".data) ∧
    extractRevision ("```\nfirst\n```\n```python\nsecond\n```".data) = "second".data := by
  refine ⟨(c9_extraction_amended.1 _ ("BASE".data) (by decide)).1,
    (c9_extraction_amended.1 (" x = 1 ".data) [] (by decide)).2,
    (c9_extraction_amended.2.1 ("pre ".data) ("\ny = 2\n".data) (" post".data) []
      (by decide) (by decide)).2,
    (c9_extraction_amended.2.2 ("A ".data) ("z = 3".data) ("!".data) ("B".data)
      (by decide) (by decide) (by decide)).1,
    by decide⟩

/-- Witness for the amended C1 at a concrete always-failing run. -/
theorem c1_retry_bound_witness :
    (execPhase (fun _ => failRes) (fun _ => none) 10 stExample).1.executionResults.length = 3 ∧
    (execPhase (fun _ => failRes) (fun _ => none) 10 stExample).1.currentTaskIndex = 1 ∧
    (execPhase (fun _ => failRes) (fun _ => none) 10 stExample).2 = [1, 2, 3] := by
  obtain ⟨h1, h2, h3, _⟩ :=
    c1_retry_bound_amended (fun _ => failRes) (fun _ => none) stExample
      ("df.head()".data) 10 (fun _ => rfl) (fun _ _ h => nomatch h) rfl (by decide)
      rfl rfl (by omega)
  exact ⟨h1, h2, h3⟩

end DataAnalyzer
